import Mathlib

/-!
Verification of the extraction core of the Insurance-PDF-Parser repository
(`PDF_Parser/pdf_parser.py`): the three per-issuer extractors, the value
normalizers, the issuer classifier and the processing pipeline.

Note on encoding: the repository's Python file is stored UTF-8 double-encoded
(mojibake), e.g. the literal bytes spell `RodnÃ© ÄÃ­slo` for the intended
`Rodné číslo`.  The definitions below use the decoded Czech text.  Extraction
behaviour only depends on the labels in the patterns agreeing with the labels
in the document text, so this renaming is behaviour-preserving.

Strings are modelled as `String` / `List Char`; Python regular expressions are
modelled by a small executable matching engine (`RE`, `mrun`, `research`,
`refindall`) that reproduces Python `re` backtracking order (leftmost match,
greedy/lazy priority, first-alternative priority) for the constructs used by
the program.  Python character-class escapes are modelled over the character
repertoire the program uses (ASCII plus Czech letters).
-/

/-- Whitespace as matched by Python `\s` / `str.strip` for the program's
character repertoire. -/
def isSpaceChar (c : Char) : Bool :=
  c == ' ' || c == '\t' || c == '\n' || c == '\r' || c == '\x0b' || c == '\x0c'

/-- Lower-casing as done by Python `str.lower` on the characters that occur in
the program's patterns and documents: ASCII letters plus Czech letters. -/
def toLowerCz (c : Char) : Char :=
  if 'A' ≤ c && c ≤ 'Z' then Char.ofNat (c.toNat + 32)
  else match c with
  | 'Á' => 'á' | 'Č' => 'č' | 'Ď' => 'ď' | 'É' => 'é' | 'Ě' => 'ě'
  | 'Í' => 'í' | 'Ň' => 'ň' | 'Ó' => 'ó' | 'Ř' => 'ř' | 'Š' => 'š'
  | 'Ť' => 'ť' | 'Ú' => 'ú' | 'Ů' => 'ů' | 'Ý' => 'ý' | 'Ž' => 'ž'
  | _ => c

/-- Word characters as matched by Python `\w` (for `\b`), over the program's
repertoire: ASCII alphanumerics, underscore and Czech letters. -/
def isWordChar (c : Char) : Bool :=
  c.isAlphanum || c == '_' ||
    (toLowerCz c == c) == false ||  -- an upper-case Czech letter
    c ∈ ['á', 'č', 'ď', 'é', 'ě', 'í', 'ň', 'ó', 'ř', 'š', 'ť', 'ú', 'ů', 'ý', 'ž']

/-- The `lowerL l` is Python `l.lower()`. -/
def lowerL (l : List Char) : List Char := l.map toLowerCz

/-- Python `str.strip()`: drop whitespace from both ends. -/
def pyStrip (l : List Char) : List Char :=
  ((l.dropWhile isSpaceChar).reverse.dropWhile isSpaceChar).reverse

/-- The `isPreL p l` is Python `l.startswith(p)`. -/
def isPreL : List Char → List Char → Bool
  | [], _ => true
  | _ :: _, [] => false
  | a :: ps, b :: ls => a == b && isPreL ps ls

/-- The `containsSub hay nee` is Python `nee in hay` (substring containment). -/
def containsSub : List Char → List Char → Bool
  | hay, nee =>
    if isPreL nee hay then true
    else match hay with
      | [] => false
      | _ :: t => containsSub t nee

/-- Python `str.splitlines()` for the line terminators `\n`, `\r`, `\r\n`
(the terminators that occur in extracted PDF text). -/
def splitLinesPy : List Char → List (List Char)
  | [] => []
  | '\r' :: '\n' :: rest => [] :: splitLinesPy rest
  | '\r' :: rest => [] :: splitLinesPy rest
  | '\n' :: rest => [] :: splitLinesPy rest
  | c :: rest =>
    match splitLinesPy rest with
    | [] => [[c]]
    | ln :: lns => (c :: ln) :: lns

/-- Python `str.split("\n")`. -/
def splitOnNl : List Char → List (List Char)
  | [] => [[]]
  | '\n' :: rest => [] :: splitOnNl rest
  | c :: rest =>
    match splitOnNl rest with
    | [] => [[c]]
    | ln :: lns => (c :: ln) :: lns

/-- Python `re.sub(r"\s+", " ", l)`: collapse every whitespace run to one space. -/
def collapseWs : List Char → List Char
  | [] => []
  | c :: rest =>
    if isSpaceChar c then
      match rest with
      | [] => [' ']
      | d :: _ => if isSpaceChar d then collapseWs rest else ' ' :: collapseWs rest
    else c :: collapseWs rest

/-- Decimal value of a list of digit characters (Python `int` on a digit string). -/
def natOfDigits (l : List Char) : Nat :=
  l.foldl (fun a c => a * 10 + (c.toNat - '0'.toNat)) 0

/-- Python slicing `l[i:j]`. -/
def sliceL (l : List Char) (i j : Nat) : List Char := (l.drop i).take (j - i)

def strOf (l : List Char) : String := ⟨l⟩

-- ====================== REGULAR-EXPRESSION ENGINE ======================

/-- Abstract syntax of the Python regular expressions used by the program.
`star lazy e` is `e*` / `e*?`; `rep lo hi e` is the (greedy) `e{lo,hi}`;
`eos` is `$` (end of string, or just before a final newline); `wordB` is `\b`. -/
inductive RE where
  | eps
  | pred (p : Char → Bool)
  | cat (a b : RE)
  | alt (a b : RE)
  | star (lazy : Bool) (a : RE)
  | rep (lo hi : Nat) (a : RE)
  | group (n : Nat) (a : RE)
  | eos
  | wordB

/-- Structural size of a pattern, used to bound the matcher's recursion depth. -/
def RE.siz : RE → Nat
  | .eps | .pred _ | .eos | .wordB => 1
  | .cat a b | .alt a b => 1 + a.siz + b.siz
  | .star _ a | .rep _ _ a | .group _ a => 1 + a.siz

/-- Matcher state: the text before the current point (reversed) and after it.
Keeping the left context makes `\b` and group spans computable. -/
abbrev MState := List Char × List Char

/-- Captured groups, most recent first (Python keeps the last capture). -/
abbrev Caps := List (Nat × List Char)

/-- Characters consumed between entering a group at left context `l0` and
leaving it at left context `l1`. -/
def capSpan (l0 l1 : List Char) : List Char :=
  (l1.take (l1.length - l0.length)).reverse

/-- Python `\b`: word / non-word boundary at the current point. -/
def wordBoundAt : MState → Bool
  | (l, r) =>
    (match l with | [] => false | c :: _ => isWordChar c)
      != (match r with | [] => false | c :: _ => isWordChar c)

/-- Backtracking matcher.  `mrun fuel e σ cs` returns every way `e` can match a
prefix of the remaining text of `σ`, as `(state after match, captures)`, in
Python backtracking priority order (head = the match `re` would pick).  The
fuel only bounds the recursion depth; `fuelFor` below always provides enough,
because a path of recursive calls shrinks the pattern between consuming steps
and a repetition only re-enters after consuming at least one character. -/
def mrun : Nat → RE → MState → Caps → List (MState × Caps)
  | 0, _, _, _ => []
  | _ + 1, .eps, σ, cs => [(σ, cs)]
  | _ + 1, .pred p, (l, r), cs =>
    match r with
    | [] => []
    | c :: r2 => if p c then [((c :: l, r2), cs)] else []
  | fuel + 1, .cat a b, σ, cs =>
    (mrun fuel a σ cs).flatMap fun x => mrun fuel b x.1 x.2
  | fuel + 1, .alt a b, σ, cs => mrun fuel a σ cs ++ mrun fuel b σ cs
  | fuel + 1, .star z a, σ, cs =>
    let stop := [(σ, cs)]
    let go := (mrun fuel a σ cs).flatMap fun x =>
      if x.1.2.length < σ.2.length then mrun fuel (.star z a) x.1 x.2 else []
    if z then stop ++ go else go ++ stop
  | fuel + 1, .rep lo hi a, σ, cs =>
    match hi with
    | 0 => if lo == 0 then [(σ, cs)] else []
    | h + 1 =>
      let stop := if lo == 0 then [(σ, cs)] else []
      let go := (mrun fuel a σ cs).flatMap fun x => mrun fuel (.rep (lo - 1) h a) x.1 x.2
      go ++ stop
  | fuel + 1, .group n a, σ, cs =>
    (mrun fuel a σ cs).map fun x => (x.1, (n, capSpan σ.1 x.1.1) :: x.2)
  | _ + 1, .eos, σ, cs =>
    match σ.2 with
    | [] => [(σ, cs)]
    | ['\n'] => [(σ, cs)]
    | _ => []
  | _ + 1, .wordB, σ, cs => if wordBoundAt σ then [(σ, cs)] else []

/-- Ample recursion-depth budget for matching `e` against a text of which
`r` remains (see `mrun`). -/
def fuelFor (e : RE) (r : List Char) : Nat :=
  (e.siz + 2) * (r.length + 2) + e.siz + 100

/-- The result of a successful `re.search`: final left context, the matched
text (`group(0)`), the captures, and the remaining text after the match. -/
structure RMatch where
  stL : List Char
  whole : List Char
  caps : Caps
  rest : List Char
deriving DecidableEq

/-- The `group k` of a match (empty when the group did not capture; every group the
program reads always captures when its pattern matches). -/
def getCap (n : Nat) (cs : Caps) : List Char :=
  match cs.find? fun pr => pr.1 == n with
  | some pr => pr.2
  | none => []

/-- Try to match at the current position, else advance one character:
Python's `re.search` scan. `l` is the already-skipped prefix, reversed. -/
def searchAux (e : RE) : List Char → List Char → Option RMatch
  | l, r =>
    match mrun (fuelFor e r) e (l, r) [] with
    | x :: _ => some ⟨x.1.1, capSpan l x.1.1, x.2, x.1.2⟩
    | [] =>
      match r with
      | [] => none
      | c :: r2 => searchAux e (c :: l) r2

/-- Python `re.search(e, s)`. -/
def research (e : RE) (s : List Char) : Option RMatch := searchAux e [] s

/-- Scanning step for `re.findall`, collecting `group(1)` of each
non-overlapping match from left to right. -/
def refindAux (e : RE) : Nat → List Char → List Char → List (List Char)
  | 0, _, _ => []
  | fuel + 1, l, r =>
    match searchAux e l r with
    | none => []
    | some m =>
      if m.whole.isEmpty then
        match m.rest with
        | [] => [getCap 1 m.caps]
        | c :: r2 => getCap 1 m.caps :: refindAux e fuel (c :: m.stL) r2
      else getCap 1 m.caps :: refindAux e fuel m.stL m.rest

/-- Python `re.findall(e, s)` for a pattern with one capturing group. -/
def refindall (e : RE) (s : List Char) : List (List Char) :=
  refindAux e (s.length + 1) [] s

-- ====================== PATTERN COMBINATORS ======================

def seqR (l : List RE) : RE := l.foldr RE.cat RE.eps

def altR : List RE → RE
  | [] => RE.pred fun _ => false
  | [e] => e
  | e :: rest => RE.alt e (altR rest)

/-- A literal character (case-sensitive). -/
def chP (c : Char) : RE := RE.pred fun d => d == c

/-- A literal string (case-sensitive). -/
def litS (s : String) : RE := seqR (s.data.map chP)

/-- A literal string under `re.IGNORECASE`. -/
def litI (s : String) : RE :=
  seqR (s.data.map fun c => RE.pred fun d => toLowerCz d == toLowerCz c)

def star0 (e : RE) : RE := RE.star false e
def star0L (e : RE) : RE := RE.star true e
def plusG (e : RE) : RE := RE.cat e (star0 e)
def optG (e : RE) : RE := RE.alt e RE.eps
def grp (n : Nat) (e : RE) : RE := RE.group n e
def repR (lo hi : Nat) (e : RE) : RE := RE.rep lo hi e

/-- The `\d` (the documents use ASCII digits). -/
def dC : RE := RE.pred Char.isDigit
/-- The `\s`. -/
def sC : RE := RE.pred isSpaceChar
/-- The `[\d\s]` / `[0-9\s]`. -/
def dsC : RE := RE.pred fun c => c.isDigit || isSpaceChar c
/-- The `.` and `[^\n]` without `re.DOTALL`. -/
def dotNL : RE := RE.pred fun c => c != '\n'
/-- The `.` under `re.DOTALL`. -/
def dotA : RE := RE.pred fun _ => true
/-- The `[:\-]`. -/
def colonDash : RE := RE.pred fun c => c == ':' || c == '-'
/-- The `[\+0-9 ]` (the phone-number class). -/
def phC : RE := RE.pred fun c => c == '+' || c.isDigit || c == ' '

-- a few sanity checks of the engine against Python `re` behaviour

-- ====================== NORMALIZERS ======================

/-- Truthiness of Python `re.match(r"\d{6}", s)`: the first six characters
exist and are digits. -/
def matchDigits6 (l : List Char) : Bool :=
  (l.take 6).length == 6 && (l.take 6).all Char.isDigit

/-- The `clean_phone_number` (pdf_parser.py:70-92). -/
def clean_phone_number (s : String) : String :=
  if s.data.isEmpty then ""  -- `if not phone_raw`
  else
    let d1 := s.data.filter Char.isDigit  -- `re.sub(r"\D", "", phone_raw)`
    let d2 :=
      if isPreL "420".data d1 then d1.drop 3
      else if isPreL "00420".data d1 then d1.drop 5
      else d1
    if d2.length == 9 then strOf d2 else ""

/-- The `parse_birth_number` (pdf_parser.py:95-112). -/
def parse_birth_number (s : String) : String :=
  if s.data.isEmpty || !matchDigits6 s.data then ""
  else
    let rc := s.data.filter fun c => c != '/'  -- `birth_number.replace("/", "")`
    let year0 := natOfDigits (rc.take 2)       -- `int(rc[:2])`
    let year := if year0 ≥ 50 then 1900 + year0 else 2000 + year0
    strOf (sliceL rc 4 6) ++ "." ++ strOf (sliceL rc 2 4) ++ "." ++ Nat.repr year

/-- The phone normalizer as the specification words it: strip non-digits; drop
3 leading digits when the digit string begins with `420`, 5 when it begins
with `00420`; keep the result only when it is exactly 9 digits long. -/
def clean_phone_number_claimed (s : String) : String :=
  let digits := s.data.filter Char.isDigit
  let rest :=
    if isPreL "420".data digits then digits.drop 3
    else if isPreL "00420".data digits then digits.drop 5
    else digits
  if rest.length == 9 then strOf rest else ""

/-- The birth-number normalizer as the specification words it: empty unless
the input starts with 6 digits; after stripping slashes, digits 0-1 give a
two-digit year (century 1900 when ≥ 50, else 2000), and the output is digits
4-5, digits 2-3 and the four-digit year, joined by dots. -/
def parse_birth_number_claimed (s : String) : String :=
  if 6 ≤ s.data.length && (s.data.take 6).all Char.isDigit then
    let rc := s.data.filter fun c => c != '/'
    let yy := natOfDigits (rc.take 2)
    let year := (if yy ≥ 50 then 1900 else 2000) + yy
    strOf (sliceL rc 4 6) ++ "." ++ strOf (sliceL rc 2 4) ++ "." ++ Nat.repr year
  else ""

-- ====================== FIELD RECORDS ======================

/-- A `FieldRecord`: a Python dict from field names to string values, as an
ordered association list. -/
abbrev Record := List (String × String)

/-- Python `data[k] = v` on a dict: replace the value at an existing key
(keys are unique), else append the new key. -/
def dictSet : Record → String → String → Record
  | [], k, v => [(k, v)]
  | p :: r, k, v => if p.1 = k then (k, v) :: r else p :: dictSet r k v

/-- Python `data.get(k, "")` (and `data[k]` for present keys). -/
def dictGet : Record → String → String
  | [], _ => ""
  | p :: r, k => if p.1 = k then p.2 else dictGet r k

/-- The `extract_common_fields` (pdf_parser.py:25-64): the fixed output schema,
every field initialized to the empty string. -/
def extract_common_fields : Record :=
  [("Jméno a příjmení", ""),
   ("Rodné číslo", ""),
   ("Datum narození", ""),
   ("Adresa", ""),
   ("Číslo smlouvy", ""),
   ("SPZ", ""),
   ("Cena vozidla", ""),
   ("Najeté km", ""),
   ("Roční nájezd", ""),
   ("Počátek pojištění", ""),
   ("Cena", ""),
   ("Krytí PR", ""),
   ("Havarijní pojištění", ""),
   ("Další připojištění", ""),
   ("Telefon", ""),
   ("E-mail", ""),
   ("Pojistník - Typ osoby", ""),
   ("Pojistník - Plátce DPH", ""),
   ("Shodný provozovatel", ""),
   ("Shodný vlastník", ""),
   ("Provozovatel - Název", ""),
   ("Provozovatel - IČO", ""),
   ("Provozovatel - Adresa", ""),
   ("Provozovatel - Typ osoby", ""),
   ("Provozovatel - Plátce DPH", ""),
   ("Vlastník - Název", ""),
   ("Vlastník - IČO", ""),
   ("Vlastník - Adresa", ""),
   ("Vlastník - Typ osoby", ""),
   ("Vlastník - Plátce DPH", ""),
   ("Zdrojový soubor", "")]

/-- The `COLUMNS` (pdf_parser.py:67). -/
def COLUMNS : List String := extract_common_fields.map Prod.fst

-- ====================== SMALL STRING UTILITIES USED BY EXTRACTORS ======================

/-- The `.replace(" ", "")`. -/
def removeSpaces (s : String) : String := strOf (s.data.filter fun c => c != ' ')

/-- The non-breaking space U+00A0. -/
def nbspC : Char := Char.ofNat 160

/-- The `.replace(" ", "").replace("\u00A0", "")`. -/
def removeSpacesNbsp (s : String) : String :=
  strOf (s.data.filter fun c => c != ' ' && c != nbspC)

/-- Lexicographic comparison of strings by code point (Python `<=` on `str`). -/
def lexLeS : List Char → List Char → Bool
  | [], _ => true
  | _ :: _, [] => false
  | a :: as2, b :: bs2 => if a.val < b.val then true else a == b && lexLeS as2 bs2

def insertSorted (x : List Char) : List (List Char) → List (List Char)
  | [] => [x]
  | y :: ys => if lexLeS x y then x :: y :: ys else y :: insertSorted x ys

/-- Python `sorted` on a list of strings. -/
def sortStrs (l : List (List Char)) : List (List Char) := l.foldr insertSorted []

/-- The `", ".join(l)`. -/
def joinCommaSp (l : List (List Char)) : List Char := List.intercalate ", ".data l

/-- The `re.search` result's `group(1)`, stripped; empty when there is no match.
This is Allianz's `search_pattern` helper (pdf_parser.py:133-136) and, for the
`default=""` calls used, Kooperativa's `find_pattern` (pdf_parser.py:279-285). -/
def searchPat1 (e : RE) (s : List Char) : String :=
  match research e s with
  | some m => strOf (pyStrip (getCap 1 m.caps))
  | none => ""

/-- The `group(1)` of an `re.search` without stripping. -/
def searchRaw1 (e : RE) (s : List Char) : String :=
  match research e s with
  | some m => strOf (getCap 1 m.caps)
  | none => ""

/-- Truthiness of `re.search`. -/
def hasPat (e : RE) (s : List Char) : Bool := (research e s).isSome

-- ====================== SHARED PATTERNS ======================

/-- The `(\d{1,2}\.\s*\d{1,2}\.\s*\d{4})` (the date group used by all issuers). -/
def reDate : RE :=
  seqR [repR 1 2 dC, chP '.', star0 sC, repR 1 2 dC, chP '.', star0 sC, repR 4 4 dC]

/-- The `[a-zA-Z0-9_.+-]`. -/
def emailLocC : RE :=
  RE.pred fun c => c.isAlphanum || c == '_' || c == '.' || c == '+' || c == '-'
/-- The `[a-zA-Z0-9-]`. -/
def emailDomC : RE := RE.pred fun c => c.isAlphanum || c == '-'
/-- The `[a-zA-Z0-9-.]`. -/
def emailDom2C : RE := RE.pred fun c => c.isAlphanum || c == '-' || c == '.'

/-- The `[a-zA-Z0-9_.+-]+@[a-zA-Z0-9-]+\.[a-zA-Z0-9-.]+` (pdf_parser.py:196,203,322). -/
def reEmail : RE :=
  seqR [plusG emailLocC, chP '@', plusG emailDomC, chP '.', plusG emailDom2C]

-- ====================== ALLIANZ EXTRACTOR (pdf_parser.py:117-260) ======================

/-- The `Rodné číslo:\s*(\d{9,10})` (line 161). -/
def reAllianzRodne : RE := seqR [litS "Rodné číslo:", star0 sC, grp 1 (repR 9 10 dC)]
/-- The `([A-Z0-9]{5,8}), č\.` (line 174). -/
def reAllianzSpz : RE :=
  seqR [grp 1 (repR 5 8 (RE.pred fun c => ('A' ≤ c && c ≤ 'Z') || c.isDigit)), litS ", č."]
/-- The `Nabídka pojistitele č\.\s*(\d+)` (line 179). -/
def reAllianzSmlouva : RE := seqR [litS "Nabídka pojistitele č.", star0 sC, grp 1 (plusG dC)]
/-- The `KČ ROČNĚ\s+(\d{1,2}\.\s*\d{1,2}\.\s*\d{4})` (line 182). -/
def reAllianzPocatek : RE := seqR [litS "KČ ROČNĚ", plusG sC, grp 1 reDate]
/-- The `Roční nájezd:\s*(Do\s*[\d\s]+km)` (line 185). -/
def reAllianzNajezd : RE :=
  seqR [litS "Roční nájezd:", star0 sC, grp 1 (seqR [litS "Do", star0 sC, plusG dsC, litS "km"])]
/-- The `Mobilní telefon:\s*([\+0-9 ]+)` (line 188). -/
def reAllianzTelefon : RE := seqR [litS "Mobilní telefon:", star0 sC, grp 1 (plusG phC)]
/-- The `Limit.*?(\d{2,3})\s*/\s*(\d{2,3})`, `re.IGNORECASE` (line 209). -/
def reAllianzKryti : RE :=
  seqR [litI "Limit", star0L dotNL, grp 1 (repR 2 3 dC), star0 sC, chP '/', star0 sC,
        grp 2 (repR 2 3 dC)]
/-- The `Cena vozidla\s*[:\-]?\s*([\d\s]+)\s*Kč`, `re.IGNORECASE` (line 241). -/
def reAllianzCenaVozidla : RE :=
  seqR [litI "Cena vozidla", star0 sC, optG colonDash, star0 sC, grp 1 (plusG dsC),
        star0 sC, litI "Kč"]
/-- The `Najeté km\s*[:\-]?\s*([\d\s]+)`, `re.IGNORECASE` (line 245). -/
def reAllianzNajete : RE :=
  seqR [litI "Najeté km", star0 sC, optG colonDash, star0 sC, grp 1 (plusG dsC)]
/-- The `([0-9]{1,3}(?:[  ]?[0-9]{3}))\s*Kč` (line 254). -/
def reAllianzCenaLine : RE :=
  seqR [grp 1 (seqR [repR 1 3 dC, optG (RE.pred fun c => c == ' ' || c == nbspC),
                     repR 3 3 dC]),
        star0 sC, litS "Kč"]

/-- The `search_after_line` (pdf_parser.py:138-144): the stripped line after the
first line containing the label (case-insensitively) that has a successor. -/
def searchAfterLine (lines : List (List Char)) (label : List Char) : List Char :=
  match (lines.zip (lines.drop 1)).find? fun pr => containsSub (lowerL pr.1) (lowerL label) with
  | some pr => pyStrip pr.2
  | none => []

/-- The name loop's find (pdf_parser.py:147-148): the pair `(lines[i-1],
lines[i])` for the first `i ≥ 1` whose line contains the national-ID label
(the loop tests `"Rodné číslo" in line and i > 0` and breaks at the first hit). -/
def allianzPrimaryPair (lines : List (List Char)) : Option (List Char × List Char) :=
  (lines.zip (lines.drop 1)).find? fun pr => containsSub pr.2 "Rodné číslo".data

/-- Allianz name extraction (pdf_parser.py:146-158): the stripped predecessor
of the first label-bearing line at index ≥ 1 if it is non-empty (the loop
breaks there even when it is empty), else the line after `Klient (Vy):`.
The source assigns the field in two consecutive statements (primary, then a
fallback guarded by the field still being empty); this is their combined value. -/
def allianzJmeno (lines : List (List Char)) : String :=
  let primary :=
    match allianzPrimaryPair lines with
    | some pr => if (pyStrip pr.1).isEmpty then none else some (pyStrip pr.1)
    | none => none
  match primary with
  | some n => strOf n
  | none => strOf (searchAfterLine lines "Klient (Vy):".data)

/-- Allianz address loop (pdf_parser.py:165-171). -/
def allianzAdresa (lines : List (List Char)) : String :=
  match lines.findIdx? fun ln => containsSub (lowerL ln) "trvalý pobyt".data with
  | some i =>
    match ((lines.drop (i + 1)).take 2).find? fun ln => !(pyStrip ln).isEmpty with
    | some ln => strOf (pyStrip ln)
    | none => ""
  | none => ""

/-- Allianz e-mail extraction (pdf_parser.py:192-206): first an e-mail in the
5 lines after the first `kontaktní adresa` line, else anywhere in the text. -/
def allianzEmail (lines : List (List Char)) (t : List Char) : String :=
  let win :=
    match lines.findIdx? fun ln => containsSub (lowerL ln) "kontaktní adresa".data with
    | some i => ((lines.drop (i + 1)).take 5).findSome? fun ln => research reEmail ln
    | none => none
  match win with
  | some m => strOf (pyStrip m.whole)
  | none =>
    match research reEmail t with
    | some m => strOf (pyStrip m.whole)
    | none => ""

/-- The two captured liability limits of the Allianz coverage pattern. -/
def allianzKrytiPair (t : List Char) : Option (String × String) :=
  (research reAllianzKryti t).map fun m => (strOf (getCap 1 m.caps), strOf (getCap 2 m.caps))

/-- Allianz `Krytí PR` (pdf_parser.py:209-211); the source assigns only on a
match, which leaves the initial `""` otherwise. -/
def allianzKryti (t : List Char) : String :=
  match allianzKrytiPair t with
  | some pr => pr.1 ++ "/" ++ pr.2
  | none => ""

/-- The `balicky_pravidla` (pdf_parser.py:220-226), in dict order. -/
def balickyPravidla : List (String × List String) :=
  [("Sjednaný balíček Max",
    ["havárie ano", "doplatek na nové (gap) ano", "gap ano"]),
   ("Sjednaný balíček Extra",
    ["krádež ano", "skla ano", "vandalismus ano"]),
   ("Sjednaný balíček Plus",
    ["přírodní události ano", "požár a výbuch ano", "poškození zvířetem ano"]),
   ("Sjednaný balíček Komfort",
    ["povinné ručení ano", "právní poradenství ano", "asistence ano",
     "rozšířená asistence ano", "úrazové pojištění ano"])]

/-- Allianz package classification (pdf_parser.py:217-234): first package, in
definition order, one of whose keywords occurs in the whitespace-collapsed
lowercased text; the loop leaves the field empty when none matches. -/
def allianzBalicek (textLower : List Char) : String :=
  let cleaned := collapseWs textLower
  match balickyPravidla.find? fun r => r.2.any fun kw => containsSub cleaned kw.data with
  | some r => r.1
  | none => ""

/-- The `havarijni` keyword list (pdf_parser.py:237). -/
def havarijniKws : List String :=
  ["přírodní události", "poškození zvířetem", "havárie", "gap", "skla", "krádež"]

/-- Allianz comprehensive-coverage flag (pdf_parser.py:237-238). -/
def allianzHavarijni (textLower : List Char) : String :=
  if havarijniKws.any fun kw => containsSub textLower (kw ++ " ano").data then "ANO" else "NE"

/-- Allianz vehicle price (pdf_parser.py:241-242). -/
def allianzCenaVozidla (t : List Char) : String :=
  match research reAllianzCenaVozidla t with
  | some m => removeSpaces (strOf (getCap 1 m.caps))
  | none => "neuvedeno"

/-- Allianz mileage (pdf_parser.py:245-246). -/
def allianzNajete (t : List Char) : String :=
  match research reAllianzNajete t with
  | some m => removeSpaces (strOf (getCap 1 m.caps))
  | none => "neuvedeno"

/-- Allianz total price (pdf_parser.py:249-258): preset `"neuvedeno"`, then
the first amount match in the 3 lines after the first `vaše pojistné` line. -/
def allianzCena (lines : List (List Char)) : String :=
  match lines.findIdx? fun ln => containsSub (lowerL ln) "vaše pojistné".data with
  | some i =>
    match ((lines.drop (i + 1)).take 3).findSome? fun ln => research reAllianzCenaLine ln with
    | some m => removeSpacesNbsp (strOf (getCap 1 m.caps))
    | none => "neuvedeno"
  | none => "neuvedeno"

/-- The `extract_data_allianz` (pdf_parser.py:117-260).  Field rules that assign
only when their pattern matches are modelled as always assigning the combined
value (match value, or the value the field holds at that point otherwise),
which produces the same record. -/
def extract_data_allianz (text filename : String) : Record :=
  let lines := splitLinesPy text.data
  let textLower := lowerL text.data
  let d0 := extract_common_fields
  let d1 := dictSet d0 "Zdrojový soubor" filename
  let d2 := dictSet d1 "Jméno a příjmení" (allianzJmeno lines)
  let d3 := dictSet d2 "Rodné číslo" (searchPat1 reAllianzRodne text.data)
  let d4 := dictSet d3 "Datum narození" (parse_birth_number (dictGet d3 "Rodné číslo"))
  let d5 := dictSet d4 "Adresa" (allianzAdresa lines)
  let d6 := dictSet d5 "SPZ" (searchRaw1 reAllianzSpz text.data)
  let d7 := dictSet d6 "Číslo smlouvy" (searchPat1 reAllianzSmlouva text.data)
  let d8 := dictSet d7 "Počátek pojištění" (searchPat1 reAllianzPocatek text.data)
  let d9 := dictSet d8 "Roční nájezd" (searchPat1 reAllianzNajezd text.data)
  let d10 := dictSet d9 "Telefon" (clean_phone_number (searchPat1 reAllianzTelefon text.data))
  let d11 := dictSet d10 "E-mail" (allianzEmail lines text.data)
  let d12 := dictSet d11 "Krytí PR" (allianzKryti text.data)
  let d13 := dictSet d12 "Shodný provozovatel"
    (if containsSub textLower "provozovatel je shodný".data then "ANO" else "NE")
  let d14 := dictSet d13 "Shodný vlastník"
    (if containsSub textLower "vlastník vozidla je shodný".data then "ANO" else "NE")
  let d15 := dictSet d14 "Další připojištění" (allianzBalicek textLower)
  let d16 := dictSet d15 "Havarijní pojištění" (allianzHavarijni textLower)
  let d17 := dictSet d16 "Cena vozidla" (allianzCenaVozidla text.data)
  let d18 := dictSet d17 "Najeté km" (allianzNajete text.data)
  let d19 := dictSet d18 "Cena" (allianzCena lines)
  d19

-- ====================== KOOPERATIVA EXTRACTOR (pdf_parser.py:265-335) ======================

/-- The `find_block(r"Titul, jméno, příjmení")`: `Titul, jméno, příjmení\s+([^\n]*)`. -/
def reKoopJmeno : RE := seqR [litS "Titul, jméno, příjmení", plusG sC, grp 1 (star0 dotNL)]
/-- The `Rodné číslo\s+(\d{9,10})` (line 293). -/
def reKoopRodne : RE := seqR [litS "Rodné číslo", plusG sC, grp 1 (repR 9 10 dC)]
/-- The `Adresa bydliště\s+([^\n]*)` (line 295). -/
def reKoopAdresa : RE := seqR [litS "Adresa bydliště", plusG sC, grp 1 (star0 dotNL)]
/-- The `\b(\d{10})\b` (line 296). -/
def reKoopSmlouva : RE := seqR [RE.wordB, grp 1 (repR 10 10 dC), RE.wordB]
/-- The `Registrační značka\s+([^\n]*)` (line 297). -/
def reKoopSpz : RE := seqR [litS "Registrační značka", plusG sC, grp 1 (star0 dotNL)]
/-- The `Pojistná částka\s+([\d\s]+)` (line 300). -/
def reKoopCastka : RE := seqR [litS "Pojistná částka", plusG sC, grp 1 (plusG dsC)]
/-- The `Stav počítadla \(km\)\s+([\d\s]+)` (line 301). -/
def reKoopNajete : RE := seqR [litS "Stav počítadla (km)", plusG sC, grp 1 (plusG dsC)]
/-- The `Počátek pojištění\s+(\d{1,2}\.\s*\d{1,2}\.\s*\d{4})` (line 302). -/
def reKoopPocatek : RE := seqR [litS "Počátek pojištění", plusG sC, grp 1 reDate]
/-- The `Celkové roční pojistné\s+([\d\s]+)` (line 303). -/
def reKoopCena : RE := seqR [litS "Celkové roční pojistné", plusG sC, grp 1 (plusG dsC)]
/-- The `(\d{2,3})\s*mil\.\s*Kč` (line 306). -/
def reKoopLimit : RE := seqR [grp 1 (repR 2 3 dC), star0 sC, litS "mil.", star0 sC, litS "Kč"]
/-- The `Provozovatel\s+Shodný\s+s\s+pojistníkem`, `re.IGNORECASE` (line 313). -/
def reKoopProv : RE :=
  seqR [litI "Provozovatel", plusG sC, litI "Shodný", plusG sC, litI "s", plusG sC,
        litI "pojistníkem"]
/-- The `Vlastník\s+Shodný\s+s\s+pojistníkem`, `re.IGNORECASE` (line 315). -/
def reKoopVlastnik : RE :=
  seqR [litI "Vlastník", plusG sC, litI "Shodný", plusG sC, litI "s", plusG sC,
        litI "pojistníkem"]
/-- The `Mobil\s+([\+0-9 ]+)` (line 319). -/
def reKoopMobil : RE := seqR [litS "Mobil", plusG sC, grp 1 (plusG phC)]
/-- The `Typ osoby\s+([^\n]+)` (line 325). -/
def reKoopTyp : RE := seqR [litS "Typ osoby", plusG sC, grp 1 (plusG dotNL)]
/-- The `Doplňková pojištění(.*?)(?:Roční pojistné|$)`, `re.DOTALL` (line 328). -/
def reKoopDoplBlock : RE :=
  seqR [litS "Doplňková pojištění", grp 1 (star0L dotA), altR [litS "Roční pojistné", RE.eos]]

/-- Kooperativa `Krytí PR` (pdf_parser.py:305-310): the first two `findall`
captures joined by `/`, else the literal `"neuvedeno"`. -/
def koopKryti (t : List Char) : String :=
  match refindall reKoopLimit t with
  | a :: b :: _ => strOf a ++ "/" ++ strOf b
  | _ => "neuvedeno"

/-- Kooperativa additional-coverage block (pdf_parser.py:327-331): the lines of
the block that mention `pojištění` (case-insensitively), stripped,
deduplicated, sorted, joined by `", "`; assigned only when the block matches. -/
def koopDoplnkova (t : List Char) : String :=
  match research reKoopDoplBlock t with
  | some m =>
    let items := ((splitOnNl (getCap 1 m.caps)).filter fun r =>
      containsSub (lowerL r) "pojištění".data).map pyStrip
    strOf (joinCommaSp (sortStrs items.dedup))
  | none => ""

/-- The `extract_data_koop` (pdf_parser.py:265-335). -/
def extract_data_koop (text filename : String) : Record :=
  let d0 := extract_common_fields
  let d1 := dictSet d0 "Zdrojový soubor" filename
  let d2 := dictSet d1 "Jméno a příjmení" (searchPat1 reKoopJmeno text.data)
  let d3 := dictSet d2 "Rodné číslo" (searchPat1 reKoopRodne text.data)
  let d4 := dictSet d3 "Datum narození" (parse_birth_number (dictGet d3 "Rodné číslo"))
  let d5 := dictSet d4 "Adresa" (searchPat1 reKoopAdresa text.data)
  let d6 := dictSet d5 "Číslo smlouvy" (searchPat1 reKoopSmlouva text.data)
  let d7 := dictSet d6 "SPZ" (searchPat1 reKoopSpz text.data)
  let d8 := dictSet d7 "Cena vozidla" (removeSpaces (searchPat1 reKoopCastka text.data))
  let d9 := dictSet d8 "Najeté km" (removeSpaces (searchPat1 reKoopNajete text.data))
  let d10 := dictSet d9 "Počátek pojištění" (searchPat1 reKoopPocatek text.data)
  let d11 := dictSet d10 "Cena" (removeSpaces (searchPat1 reKoopCena text.data))
  let d12 := dictSet d11 "Krytí PR" (koopKryti text.data)
  let d13 := dictSet d12 "Shodný provozovatel"
    (if hasPat reKoopProv text.data then "ANO" else "NE")
  let d14 := dictSet d13 "Shodný vlastník"
    (if hasPat reKoopVlastnik text.data then "ANO" else "NE")
  let d15 := dictSet d14 "Telefon" (clean_phone_number (searchPat1 reKoopMobil text.data))
  let d16 := dictSet d15 "E-mail"
    (match research reEmail text.data with | some m => strOf m.whole | none => "")
  let d17 := dictSet d16 "Pojistník - Typ osoby" (searchPat1 reKoopTyp text.data)
  let d18 := dictSet d17 "Další připojištění" (koopDoplnkova text.data)
  let d19 := dictSet d18 "Havarijní pojištění"
    (if containsSub text.data "Havarijní pojištění".data then "ANO" else "NE")
  d19

-- ====================== GENERALI EXTRACTOR (pdf_parser.py:340-481) ======================

/-- The `POJISTNÍK\s*-\s*fyzická osoba\s*(.*?)\n(?:PRACOVNÍK|POJISTNÍ|TECHNICKÉ|POJIŠTĚNÍ|$)`,
`re.DOTALL | re.IGNORECASE` (lines 355-359). -/
def reGenPojistnik : RE :=
  seqR [litI "POJISTNÍK", star0 sC, litI "-", star0 sC, litI "fyzická osoba", star0 sC,
        grp 1 (star0L dotA), chP '\n',
        altR [litI "PRACOVNÍK", litI "POJISTNÍ", litI "TECHNICKÉ", litI "POJIŠTĚNÍ", RE.eos]]

/-- The `extract_field` / `extract_car_field` pattern `{label}\s*:\s*(.+)`
(lines 364-368, 396-400). -/
def fieldColon (label : String) : RE :=
  seqR [litS label, star0 sC, chP ':', star0 sC, grp 1 (plusG dotNL)]

/-- The `Pojistná smlouva číslo\s*:\s*(\d+)` (line 382). -/
def reGenSmlouva : RE :=
  seqR [litS "Pojistná smlouva číslo", star0 sC, chP ':', star0 sC, grp 1 (plusG dC)]

/-- The `3\.3\s+Údaje o vozidle\s*(.*?)\n(?:3\.4|POJIŠTĚNÍ|TECHNICKÉ|$)`,
`re.DOTALL | re.IGNORECASE` (lines 387-391). -/
def reGenVozidlo : RE :=
  seqR [litI "3.3", plusG sC, litI "Údaje o vozidle", star0 sC,
        grp 1 (star0L dotA), chP '\n',
        altR [litI "3.4", litI "POJIŠTĚNÍ", litI "TECHNICKÉ", RE.eos]]

/-- The `počátkem pojištění\s+(\d{1,2}\.\s*\d{1,2}\.\s*\d{4})`, `re.IGNORECASE` (line 405). -/
def reGenPocatek : RE := seqR [litI "počátkem pojištění", plusG sC, grp 1 reDate]

/-- The `Limit pojistného plnění.*?(\d{2,3})\s*[\d\s]*Kč.*?škody na majetku.*?(\d{2,3})\s*[\d\s]*Kč`,
`re.DOTALL | re.IGNORECASE` (lines 410-414). -/
def reGenKryti : RE :=
  seqR [litI "Limit pojistného plnění", star0L dotA, grp 1 (repR 2 3 dC), star0 sC,
        star0 dsC, litI "Kč", star0L dotA, litI "škody na majetku", star0L dotA,
        grp 2 (repR 2 3 dC), star0 sC, star0 dsC, litI "Kč"]

/-- The `Celkem roční pojistné.*?([0-9\s]{4,7})\s*Kč`, `re.IGNORECASE` (line 422). -/
def reGenCena1 : RE :=
  seqR [litI "Celkem roční pojistné", star0L dotNL, grp 1 (repR 4 7 dsC), star0 sC, litI "Kč"]
/-- The `Výše jednotlivé splátky.*?([0-9\s]{4,7})\s*Kč`, `re.IGNORECASE` (line 423). -/
def reGenCena2 : RE :=
  seqR [litI "Výše jednotlivé splátky", star0L dotNL, grp 1 (repR 4 7 dsC), star0 sC, litI "Kč"]
/-- The `Částka\s*([0-9\s]{4,7})\s*Kč`, `re.IGNORECASE` (line 424). -/
def reGenCena3 : RE :=
  seqR [litI "Částka", star0 sC, grp 1 (repR 4 7 dsC), star0 sC, litI "Kč"]

/-- The `4\.2\s+Doplňková pojištění\s+(.*)`, `re.IGNORECASE` (line 434). -/
def reGenPripoj : RE :=
  seqR [litI "4.2", plusG sC, litI "Doplňková pojištění", plusG sC, grp 1 (star0 dotNL)]

/-- The `cena vozidla\s*[:\-]?\s*([0-9\s]{4,10})`, `re.IGNORECASE` (line 447). -/
def reGenCenaVozidla : RE :=
  seqR [litI "cena vozidla", star0 sC, optG colonDash, star0 sC, grp 1 (repR 4 10 dsC)]
/-- The `Najeté kilometry\s*[:\-]?\s*([0-9\s]{1,10})`, `re.IGNORECASE` (line 452). -/
def reGenNajete : RE :=
  seqR [litI "Najeté kilometry", star0 sC, optG colonDash, star0 sC, grp 1 (repR 1 10 dsC)]
/-- The `Roční nájezd\s*[:\-]?\s*([0-9\s]{1,10})`, `re.IGNORECASE` (line 456). -/
def reGenRocni : RE :=
  seqR [litI "Roční nájezd", star0 sC, optG colonDash, star0 sC, grp 1 (repR 1 10 dsC)]

/-- The `Plátce DPH\s*[:\-]?\s*ano`, `re.IGNORECASE` (line 461). -/
def reGenDph : RE := seqR [litI "Plátce DPH", star0 sC, optG colonDash, star0 sC, litI "ano"]

/-- The `3\.2\s+Držitel\s+\(provozovatel\)\s+vozidla\s+je\s+shodný\s+s\s+pojistníkem`,
`re.IGNORECASE` (lines 465-469). -/
def reGenProv : RE :=
  seqR [litI "3.2", plusG sC, litI "Držitel", plusG sC, litI "(provozovatel)", plusG sC,
        litI "vozidla", plusG sC, litI "je", plusG sC, litI "shodný", plusG sC, litI "s",
        plusG sC, litI "pojistníkem"]

/-- The `3\.1\s+Vlastník vozidla:\s*(.+)` (line 473). -/
def reGenVlastnik : RE :=
  seqR [litS "3.1", plusG sC, litS "Vlastník vozidla:", star0 sC, grp 1 (plusG dotNL)]

/-- The policyholder block `pojistnik_match.group(1)` (lines 355-362). -/
def generaliBlock (t : List Char) : Option (List Char) :=
  (research reGenPojistnik t).map fun m => getCap 1 m.caps

/-- The vehicle block `vozidlo_match.group(1)` (lines 387-394). -/
def generaliVozidloBlk (t : List Char) : Option (List Char) :=
  (research reGenVozidlo t).map fun m => getCap 1 m.caps

/-- A labelled field inside an optional block; empty when the block is absent
(the source then never assigns, leaving the initial `""`). -/
def genField (blk : Option (List Char)) (e : RE) : String :=
  match blk with
  | some b => searchPat1 e b
  | none => ""

/-- Generali `Krytí PR` (pdf_parser.py:409-418). -/
def generaliKryti (t : List Char) : String :=
  match research reGenKryti t with
  | some m => strOf (pyStrip (getCap 1 m.caps)) ++ "/" ++ strOf (pyStrip (getCap 2 m.caps))
  | none => ""

/-- Generali premium (pdf_parser.py:420-431): first of the three price
patterns that matches. -/
def generaliCena (t : List Char) : String :=
  match [reGenCena1, reGenCena2, reGenCena3].findSome? fun e => research e t with
  | some m => removeSpaces (strOf (getCap 1 m.caps))
  | none => ""

/-- The `havarijni_keywords` (pdf_parser.py:440-443). -/
def genHavarijniKws : List String :=
  ["havarijní pojištění", "poškození zvířetem", "přírodní události", "havárie", "skla",
   "krádež", "vandalismus", "gap"]

/-- Generali vehicle price (pdf_parser.py:446-449). -/
def generaliCenaVozidla (t : List Char) : String :=
  match research reGenCenaVozidla t with
  | some m => removeSpaces (strOf (getCap 1 m.caps))
  | none => "neuvedeno"

/-- Generali mileage (pdf_parser.py:452-454). -/
def generaliNajete (t : List Char) : String :=
  match research reGenNajete t with
  | some m => removeSpaces (strOf (getCap 1 m.caps))
  | none => "neuvedeno"

/-- Generali annual mileage (pdf_parser.py:456-458). -/
def generaliRocni (t : List Char) : String :=
  match research reGenRocni t with
  | some m => removeSpaces (strOf (getCap 1 m.caps))
  | none => "neuvedeno"

/-- Generali owner name (pdf_parser.py:472-479). -/
def generaliVlastnikNazev (t : List Char) : String :=
  match research reGenVlastnik t with
  | some m => strOf (pyStrip (getCap 1 m.caps))
  | none => "neuvedeno"

/-- Generali same-owner flag (pdf_parser.py:472-479): the source assigns
`"NE"` in both branches of the owner-line test. -/
def generaliShodnyVlastnik (t : List Char) : String :=
  match research reGenVlastnik t with
  | some _ => "NE"
  | none => "NE"

/-- The `extract_data_generali` (pdf_parser.py:340-481).  Fields assigned inside
the policyholder/vehicle block conditionals are modelled with their combined
value (`""` when the block is absent), which produces the same record. -/
def extract_data_generali (text filename : String) : Record :=
  let blk := generaliBlock text.data
  let g0 := extract_common_fields
  let g1 := dictSet g0 "Zdrojový soubor" filename
  let g2 := dictSet g1 "Jméno a příjmení"
    (genField blk (fieldColon "Titul, jméno, příjmení, titul za jménem"))
  let g3 := dictSet g2 "Rodné číslo" (genField blk (fieldColon "Rodné číslo"))
  let g4 := dictSet g3 "Datum narození"
    (parse_birth_number (strOf ((dictGet g3 "Rodné číslo").data.filter fun c => c != '/')))
  let g5 := dictSet g4 "Telefon" (clean_phone_number (genField blk (fieldColon "Telefon")))
  let g6 := dictSet g5 "E-mail" (genField blk (fieldColon "E-mail"))
  let g7 := dictSet g6 "Adresa" (genField blk (fieldColon "Trvalá adresa"))
  let g8 := dictSet g7 "Pojistník - Typ osoby"
    (match blk with | some _ => "fyzická osoba" | none => "")
  let g9 := dictSet g8 "Číslo smlouvy" (searchPat1 reGenSmlouva text.data)
  let g10 := dictSet g9 "SPZ" (genField (generaliVozidloBlk text.data) (fieldColon "Registrační značka"))
  let g11 := dictSet g10 "Počátek pojištění" (searchPat1 reGenPocatek text.data)
  let g12 := dictSet g11 "Krytí PR" (generaliKryti text.data)
  let g13 := dictSet g12 "Cena" (generaliCena text.data)
  let g14 := dictSet g13 "Další připojištění" (searchPat1 reGenPripoj text.data)
  let g15 := dictSet g14 "Havarijní pojištění"
    (if genHavarijniKws.any (fun kw => containsSub (lowerL text.data) kw.data)
     then "ANO" else "NE")
  let g16 := dictSet g15 "Cena vozidla" (generaliCenaVozidla text.data)
  let g17 := dictSet g16 "Najeté km" (generaliNajete text.data)
  let g18 := dictSet g17 "Roční nájezd" (generaliRocni text.data)
  let g19 := dictSet g18 "Pojistník - Plátce DPH"
    (if hasPat reGenDph text.data then "ANO" else "neuvedeno")
  let g20 := dictSet g19 "Shodný provozovatel"
    (if hasPat reGenProv text.data then "ANO" else "NE")
  let g21 := dictSet g20 "Vlastník - Název" (generaliVlastnikNazev text.data)
  let g22 := dictSet g21 "Shodný vlastník" (generaliShodnyVlastnik text.data)
  g22

-- ====================== CLASSIFIER AND PIPELINE (pdf_parser.py:494-541) ======================

/-- The closed issuer enumeration of the specification. -/
inductive Issuer where
  | Allianz
  | Kooperativa
  | Generali
  | Unrecognized
deriving DecidableEq

/-- The issuer classifier of `PDFHandler.on_created` (pdf_parser.py:517-531):
case-insensitive substring tests in fixed priority order. -/
def classify_issuer (text : String) : Issuer :=
  let tl := lowerL text.data
  if containsSub tl "allianz".data then .Allianz
  else if containsSub tl "kooperativa".data then .Kooperativa
  else if containsSub tl "generali".data || containsSub tl "česká podnikatelská".data then
    .Generali
  else .Unrecognized

/-- The pipeline error kinds of the specification (§7).  `ExtractionFailed`
is unreachable in this model because the modelled extractors are total. -/
inductive PipelineError where
  | EmptyDocument
  | UnsupportedIssuer
  | ExtractionFailed
deriving DecidableEq

/-- The decision logic of `PDFHandler.on_created` (pdf_parser.py:507-536) with
its file-system effects abstracted into a result, as in specification §4.4:
empty or whitespace-only text is rejected, then the classified issuer's
extractor produces the record, unrecognized text is rejected. -/
def process (text filename : String) : Except PipelineError Record :=
  if (pyStrip text.data).isEmpty then .error .EmptyDocument  -- `if not text.strip()`
  else
    match classify_issuer text with
    | .Allianz => .ok (extract_data_allianz text filename)
    | .Kooperativa => .ok (extract_data_koop text filename)
    | .Generali => .ok (extract_data_generali text filename)
    | .Unrecognized => .error .UnsupportedIssuer


-- ====================== SPECIFICATION-SIDE DEFINITIONS ======================

/-- The Allianz name rule exactly as claim C8 words it: the name is the
stripped, non-empty line immediately preceding the FIRST line containing the
national-ID label (no name from this path when that first label line has no
preceding line or the preceding line is blank), and the line following a
`Klient (Vy):` label is used only when this primary path yields no name. -/
def allianzJmenoClaimed (t : String) : String :=
  let lines := splitLinesPy t.data
  let primary :=
    match lines.findIdx? fun ln => containsSub ln "Rodné číslo".data with
    | some i =>
      if i == 0 then none
      else
        match (lines.drop (i - 1)).head? with
        | some prev => if (pyStrip prev).isEmpty then none else some (pyStrip prev)
        | none => none
    | none => none
  match primary with
  | some n => strOf n
  | none => strOf (searchAfterLine lines "Klient (Vy):".data)

/-- Claim C8 amended to what the code does: the primary path uses the first
label-bearing line that has a preceding line (a label on the very first line
is skipped, it does not disable the primary path); its stripped predecessor is
the name when non-empty, and the `Klient (Vy):` fallback is used only when the
primary path yields no name. -/
def allianzJmenoAmended (t : String) : String :=
  let lines := splitLinesPy t.data
  match allianzPrimaryPair lines with
  | some pr =>
    if (pyStrip pr.1).isEmpty then strOf (searchAfterLine lines "Klient (Vy):".data)
    else strOf (pyStrip pr.1)
  | none => strOf (searchAfterLine lines "Klient (Vy):".data)

-- ====================== SANITY CHECKS ======================

example : splitLinesPy "ab\ncd\n".data = ["ab".data, "cd".data] := by decide
example : splitLinesPy "".data = [] := by decide
example : splitOnNl "a\n".data = ["a".data, "".data] := by decide
example : collapseWs "a  b\n\nc".data = "a b c".data := by decide
example : pyStrip "  x y ".data = "x y".data := by decide
example : containsSub "abcd".data "bc".data = true := by decide
example : containsSub "abcd".data "bd".data = false := by decide
example : lowerL "AhOj ŘEŘICHA".data = "ahoj řeřicha".data := by decide
example :
    (research (seqR [litS "ab", grp 1 (plusG dC)]) "xxab987y".data).map
      (fun m => (strOf m.whole, strOf (getCap 1 m.caps))) = some ("ab987", "987") := by
  decide
example : research (litS "q") "abc".data = none := by decide
example :  -- lazy star stops early, greedy rep prefers the longest
    (research (seqR [litS "L", star0L dotNL, grp 1 (repR 2 3 dC)]) "L..1234".data).map
      (fun m => strOf (getCap 1 m.caps)) = some ("123") := by decide
example :  -- word boundaries
    (research (seqR [RE.wordB, grp 1 (repR 3 3 dC), RE.wordB]) "a1234 567 89".data).map
      (fun m => strOf (getCap 1 m.caps)) = some ("567") := by decide
example : refindall (seqR [grp 1 (repR 2 3 dC), litS "m"]) "12m 3 456m78m".data
    = ["12".data, "456".data, "78".data] := by decide
example :  -- `$` alternative: the lazy block expands to the end of the string
    (research (seqR [litS "B", grp 1 (star0L dotA), altR [litS "E", RE.eos]]) "xB12\n3".data).map
      (fun m => strOf (getCap 1 m.caps)) = some ("12\n3") := by decide
example :  -- ... but stops at a terminator when one occurs
    (research (seqR [litS "B", grp 1 (star0L dotA), altR [litS "E", RE.eos]]) "xB12\nE3".data).map
      (fun m => strOf (getCap 1 m.caps)) = some ("12\n") := by decide
example :  -- `$` also matches just before a final newline
    (research (seqR [litS "B", grp 1 (star0L dotA), altR [litS "E", RE.eos]]) "xB12\n".data).map
      (fun m => strOf (getCap 1 m.caps)) = some ("12") := by decide
example :
    (research (seqR [litS "B", grp 1 (plusG dotA), altR [litS "E", RE.eos]]) "xB12\n3".data).map
      (fun m => strOf (getCap 1 m.caps)) = some ("12\n3") := by decide
example : clean_phone_number "+420 123 456 789" = "123456789" := by decide
example : clean_phone_number "00420123456789" = "123456789" := by decide
example : clean_phone_number "12345" = "" := by decide
example : parse_birth_number "9601011234" = "01.01.1996" := by decide
example : parse_birth_number "960101/1234" = "01.01.1996" := by decide
example : parse_birth_number "0512319876" = "31.12.2005" := by decide
example : parse_birth_number "abc" = "" := by decide
example : dictGet (dictSet [("a", "1"), ("b", "2")] "b" "9") "b" = "9" := by decide
example : sortStrs ["bb".data, "a".data, "ab".data] = ["a".data, "ab".data, "bb".data] := by decide
example : strOf (joinCommaSp ["a".data, "b".data]) = "a, b" := by decide
-- ====================== RECORD LEMMAS ======================

/-- Reading a field after a dict assignment: the assigned value at the
assigned key, the previous value elsewhere. -/
theorem dictGet_dictSet (r : Record) (k v k2 : String) :
    dictGet (dictSet r k v) k2 = if k2 = k then v else dictGet r k2 := by
  induction r with
  | nil =>
    by_cases h : k2 = k
    · simp [dictSet, dictGet, h]
    · simp [dictSet, dictGet, h, Ne.symm h]
  | cons p r ih =>
    by_cases hp : p.1 = k
    · by_cases h : k2 = k
      · simp [dictSet, dictGet, hp, h]
      · have hpk2 : ¬p.1 = k2 := fun h2 => h (h2 ▸ hp ▸ rfl)
        simp [dictSet, dictGet, hp, h, hpk2, Ne.symm h]
    · by_cases h : k2 = k
      · subst h
        simp [dictSet, dictGet, hp, ih, Ne.symm hp]
      · by_cases hpk : p.1 = k2 <;> simp [dictSet, dictGet, hp, hpk, ih, h]

/-- Assigning to a key that the record already has keeps the key list. -/
theorem keys_dictSet_mem (r : Record) (k v : String) (h : k ∈ r.map Prod.fst) :
    (dictSet r k v).map Prod.fst = r.map Prod.fst := by
  induction r with
  | nil => simp at h
  | cons p r ih =>
    by_cases hp : p.1 = k
    · simp [dictSet, hp]
    · have h2 : k ∈ r.map Prod.fst := by
        rcases List.mem_map.mp h with ⟨q, hq, hqk⟩
        rcases List.mem_cons.mp hq with rfl | hq2
        · exact absurd hqk hp
        · exact List.mem_map.mpr ⟨q, hq2, hqk⟩
      simp [dictSet, hp, ih h2]

/-- Assigning to a schema key preserves the schema key list. -/
theorem keysPreserved (r : Record) (k v : String) (hk : k ∈ COLUMNS)
    (h : r.map Prod.fst = COLUMNS) : (dictSet r k v).map Prod.fst = COLUMNS := by
  rw [keys_dictSet_mem r k v (by rw [h]; exact hk), h]

-- ====================== CLAIM THEOREMS ======================

/-- C1: on every input text (including the empty string) and filename, each of
the three issuer extractors is total (they are plain functions here, so they
terminate and raise nothing) and returns a record whose key list — key set and
key order — is exactly the schema `COLUMNS` of `extract_common_fields`; each
field is produced by its own independent rule, so a failed pattern only leaves
its own field at its default. -/
theorem C1_extractors_return_fixed_schema (t f : String) :
    (extract_data_allianz t f).map Prod.fst = COLUMNS ∧
    (extract_data_koop t f).map Prod.fst = COLUMNS ∧
    (extract_data_generali t f).map Prod.fst = COLUMNS := by
  refine ⟨?_, ?_, ?_⟩
  · simp only [extract_data_allianz]
    repeat refine keysPreserved _ _ _ (by decide) ?_
    rfl
  · simp only [extract_data_koop]
    repeat refine keysPreserved _ _ _ (by decide) ?_
    rfl
  · simp only [extract_data_generali]
    repeat refine keysPreserved _ _ _ (by decide) ?_
    rfl

/-- C2: `parse_birth_number` equals the specified normalizer — empty unless
the input starts with 6 digits, else `DD.MM.YYYY` built from digits 4-5, 2-3
and the century rule (≥ 50 → 1900, else 2000) applied to digits 0-1 of the
slash-stripped input — and the claimed instances hold. -/
theorem C2_parse_birth_number_spec :
    (∀ s, parse_birth_number s = parse_birth_number_claimed s) ∧
    parse_birth_number "9601011234" = "01.01.1996" ∧
    parse_birth_number "960101/1234" = "01.01.1996" ∧
    parse_birth_number "0512319876" = "31.12.2005" := by
  refine ⟨?_, by decide, by decide, by decide⟩
  intro s
  have key : ∀ n : Nat, ((min 6 n) == 6) = decide (6 ≤ n) := by
    intro n
    by_cases h : 6 ≤ n
    · simp [Nat.min_eq_left h, h]
    · have : min 6 n = n := by omega
      rw [this]
      have h6 : ¬n = 6 := by omega
      simp [h, h6]
  have hguard : (s.data.isEmpty || !matchDigits6 s.data)
      = !(decide (6 ≤ s.data.length) && (s.data.take 6).all Char.isDigit) := by
    unfold matchDigits6
    cases hd : s.data with
    | nil => rfl
    | cons a l =>
      simp only [List.isEmpty_cons, Bool.false_or, List.length_take]
      rw [key]
  unfold parse_birth_number parse_birth_number_claimed
  rw [hguard]
  cases hcg : (decide (6 ≤ s.data.length) && (s.data.take 6).all Char.isDigit) with
  | false => simp
  | true =>
    simp only [Bool.not_true, Bool.false_eq_true, if_false, if_true]
    by_cases hy : natOfDigits ((s.data.filter fun c => c != '/').take 2) ≥ 50
    · rw [if_pos hy, if_pos hy]
    · rw [if_neg hy, if_neg hy]

/-- C3: `clean_phone_number` equals the specified normalizer — strip all
non-digits, drop 3 leading digits when the digit string begins with `420` and
5 when it begins with `00420`, return the rest iff it is exactly 9 digits,
else the empty string — and the claimed instances hold. -/
theorem C3_clean_phone_number_spec :
    (∀ s, clean_phone_number s = clean_phone_number_claimed s) ∧
    clean_phone_number "+420 123 456 789" = "123456789" ∧
    clean_phone_number "00420123456789" = "123456789" ∧
    clean_phone_number "12345" = "" := by
  refine ⟨?_, by decide, by decide, by decide⟩
  intro s
  unfold clean_phone_number clean_phone_number_claimed
  by_cases h : s.data.isEmpty
  · have hd : s.data = [] := by simpa [List.isEmpty_iff] using h
    simp [h, hd, isPreL]
  · have hf : s.data.isEmpty = false := by simpa using h
    simp [hf]
/-- C4: the issuer classifier is a case-insensitive substring test in the
fixed priority Allianz, then Kooperativa, then Generali-or-`Česká
podnikatelská`: any text containing `allianz` (in any case) classifies as
Allianz regardless of the other markers, and a text containing none of the
markers classifies as Unrecognized. -/
theorem C4_classifier_priority (t : String) :
    (containsSub (lowerL t.data) "allianz".data = true →
      classify_issuer t = Issuer.Allianz) ∧
    (containsSub (lowerL t.data) "allianz".data = false →
      containsSub (lowerL t.data) "kooperativa".data = true →
      classify_issuer t = Issuer.Kooperativa) ∧
    (containsSub (lowerL t.data) "allianz".data = false →
      containsSub (lowerL t.data) "kooperativa".data = false →
      (containsSub (lowerL t.data) "generali".data = true ∨
        containsSub (lowerL t.data) "česká podnikatelská".data = true) →
      classify_issuer t = Issuer.Generali) ∧
    (containsSub (lowerL t.data) "allianz".data = false →
      containsSub (lowerL t.data) "kooperativa".data = false →
      containsSub (lowerL t.data) "generali".data = false →
      containsSub (lowerL t.data) "česká podnikatelská".data = false →
      classify_issuer t = Issuer.Unrecognized) := by
  refine ⟨?_, ?_, ?_, ?_⟩
  · intro h1
    simp [classify_issuer, h1]
  · intro h1 h2
    simp [classify_issuer, h1, h2]
  · intro h1 h2 h3
    rcases h3 with h3 | h3 <;> simp [classify_issuer, h1, h2, h3]
  · intro h1 h2 h3 h4
    simp [classify_issuer, h1, h2, h3, h4]

/-- Witness for C4: a text that contains all three markers (upper-case
`ALLIANZ` among them) classifies as Allianz; a text with no marker is
Unrecognized. -/
theorem C4_classifier_priority_witness :
    classify_issuer "nabídka ALLIANZ, kooperativa i generali" = Issuer.Allianz ∧
    classify_issuer "běžný dopis" = Issuer.Unrecognized := by
  constructor
  · exact (C4_classifier_priority _).1 (by decide)
  · exact (C4_classifier_priority _).2.2.2 (by decide) (by decide) (by decide) (by decide)

/-- C6: the pipeline on a `RawDocument`: whitespace-only text gives
`EmptyDocument`; text with no issuer marker gives `UnsupportedIssuer` (no
record); otherwise the matching extractor's record is returned. -/
theorem C6_pipeline_dispatch (t f : String) :
    ((pyStrip t.data).isEmpty = true →
      process t f = Except.error PipelineError.EmptyDocument) ∧
    ((pyStrip t.data).isEmpty = false → classify_issuer t = Issuer.Unrecognized →
      process t f = Except.error PipelineError.UnsupportedIssuer) ∧
    ((pyStrip t.data).isEmpty = false → classify_issuer t = Issuer.Allianz →
      process t f = Except.ok (extract_data_allianz t f)) ∧
    ((pyStrip t.data).isEmpty = false → classify_issuer t = Issuer.Kooperativa →
      process t f = Except.ok (extract_data_koop t f)) ∧
    ((pyStrip t.data).isEmpty = false → classify_issuer t = Issuer.Generali →
      process t f = Except.ok (extract_data_generali t f)) := by
  refine ⟨?_, ?_, ?_, ?_, ?_⟩
  · intro h1
    simp [process, h1]
  all_goals intro h1 h2
  all_goals simp [process, h1, h2]

/-- Witness for C6: a whitespace-only document, an unrecognized document and
one document per issuer. -/
theorem C6_pipeline_dispatch_witness :
    process "  \n " "a.pdf" = Except.error PipelineError.EmptyDocument ∧
    process "běžný dopis" "b.pdf" = Except.error PipelineError.UnsupportedIssuer ∧
    process "ALLIANZ nabídka" "c.pdf" = Except.ok (extract_data_allianz "ALLIANZ nabídka" "c.pdf") ∧
    process "Kooperativa smlouva" "d.pdf" = Except.ok (extract_data_koop "Kooperativa smlouva" "d.pdf") ∧
    process "Česká podnikatelská pojišťovna" "e.pdf"
      = Except.ok (extract_data_generali "Česká podnikatelská pojišťovna" "e.pdf") := by
  refine ⟨?_, ?_, ?_, ?_, ?_⟩
  · exact (C6_pipeline_dispatch _ _).1 (by decide)
  · exact (C6_pipeline_dispatch _ _).2.1 (by decide) (by decide)
  · exact (C6_pipeline_dispatch _ _).2.2.1 (by decide) (by decide)
  · exact (C6_pipeline_dispatch _ _).2.2.2.1 (by decide) (by decide)
  · exact (C6_pipeline_dispatch _ _).2.2.2.2 (by decide) (by decide)
/-- C5 counterexample: the claim says every issuer extractor defaults the
vehicle-price field to `"neuvedeno"`, but on the empty document (where the
Kooperativa vehicle-price pattern is absent) the Kooperativa extractor leaves
the field at the empty string. -/
theorem C5_counterexample :
    research reKoopCastka ("" : String).data = none ∧
    dictGet (extract_data_koop "" "doc.pdf") "Cena vozidla" = "" ∧
    ("" : String) ≠ "neuvedeno" := by
  refine ⟨rfl, ?_, by decide⟩
  rfl

/-- C5 (amended): when their patterns are absent, the Allianz and Generali
extractors default vehicle price and mileage to `"neuvedeno"`; annual mileage
defaults to `"neuvedeno"` in Generali but to the empty string in Allianz; the
Kooperativa extractor defaults all three fields to the empty string.  In
particular a Generali document with no vehicle-price match yields
`"neuvedeno"`. -/
theorem C5_amended_absence_defaults (t f : String)
    (ha1 : research reAllianzCenaVozidla t.data = none)
    (ha2 : research reAllianzNajete t.data = none)
    (ha3 : research reAllianzNajezd t.data = none)
    (hk1 : research reKoopCastka t.data = none)
    (hk2 : research reKoopNajete t.data = none)
    (hg1 : research reGenCenaVozidla t.data = none)
    (hg2 : research reGenNajete t.data = none)
    (hg3 : research reGenRocni t.data = none) :
    dictGet (extract_data_allianz t f) "Cena vozidla" = "neuvedeno" ∧
    dictGet (extract_data_allianz t f) "Najeté km" = "neuvedeno" ∧
    dictGet (extract_data_allianz t f) "Roční nájezd" = "" ∧
    dictGet (extract_data_koop t f) "Cena vozidla" = "" ∧
    dictGet (extract_data_koop t f) "Najeté km" = "" ∧
    dictGet (extract_data_koop t f) "Roční nájezd" = "" ∧
    dictGet (extract_data_generali t f) "Cena vozidla" = "neuvedeno" ∧
    dictGet (extract_data_generali t f) "Najeté km" = "neuvedeno" ∧
    dictGet (extract_data_generali t f) "Roční nájezd" = "neuvedeno" := by
  have hA1 : dictGet (extract_data_allianz t f) "Cena vozidla" = allianzCenaVozidla t.data := by
    simp only [extract_data_allianz, dictGet_dictSet]
    simp
  have hA2 : dictGet (extract_data_allianz t f) "Najeté km" = allianzNajete t.data := by
    simp only [extract_data_allianz, dictGet_dictSet]
    simp
  have hA3 : dictGet (extract_data_allianz t f) "Roční nájezd"
      = searchPat1 reAllianzNajezd t.data := by
    simp only [extract_data_allianz, dictGet_dictSet]
    simp
  have hK1 : dictGet (extract_data_koop t f) "Cena vozidla"
      = removeSpaces (searchPat1 reKoopCastka t.data) := by
    simp only [extract_data_koop, dictGet_dictSet]
    simp
  have hK2 : dictGet (extract_data_koop t f) "Najeté km"
      = removeSpaces (searchPat1 reKoopNajete t.data) := by
    simp only [extract_data_koop, dictGet_dictSet]
    simp
  have hK3 : dictGet (extract_data_koop t f) "Roční nájezd"
      = dictGet extract_common_fields "Roční nájezd" := by
    simp only [extract_data_koop, dictGet_dictSet]
    simp
  have hG1 : dictGet (extract_data_generali t f) "Cena vozidla"
      = generaliCenaVozidla t.data := by
    simp only [extract_data_generali, dictGet_dictSet]
    simp
  have hG2 : dictGet (extract_data_generali t f) "Najeté km" = generaliNajete t.data := by
    simp only [extract_data_generali, dictGet_dictSet]
    simp
  have hG3 : dictGet (extract_data_generali t f) "Roční nájezd" = generaliRocni t.data := by
    simp only [extract_data_generali, dictGet_dictSet]
    simp
  refine ⟨?_, ?_, ?_, ?_, ?_, by rw [hK3]; rfl, ?_, ?_, ?_⟩
  · rw [hA1]; unfold allianzCenaVozidla; rw [ha1]
  · rw [hA2]; unfold allianzNajete; rw [ha2]
  · rw [hA3]; unfold searchPat1; rw [ha3]
  · rw [hK1]; unfold searchPat1; rw [hk1]; rfl
  · rw [hK2]; unfold searchPat1; rw [hk2]; rfl
  · rw [hG1]; unfold generaliCenaVozidla; rw [hg1]
  · rw [hG2]; unfold generaliNajete; rw [hg2]
  · rw [hG3]; unfold generaliRocni; rw [hg3]

/-- Witness for the amended C5, at the empty document, where all the patterns
are absent. -/
theorem C5_amended_absence_defaults_witness :
    dictGet (extract_data_allianz "" "f") "Cena vozidla" = "neuvedeno" ∧
    dictGet (extract_data_allianz "" "f") "Najeté km" = "neuvedeno" ∧
    dictGet (extract_data_allianz "" "f") "Roční nájezd" = "" ∧
    dictGet (extract_data_koop "" "f") "Cena vozidla" = "" ∧
    dictGet (extract_data_koop "" "f") "Najeté km" = "" ∧
    dictGet (extract_data_koop "" "f") "Roční nájezd" = "" ∧
    dictGet (extract_data_generali "" "f") "Cena vozidla" = "neuvedeno" ∧
    dictGet (extract_data_generali "" "f") "Najeté km" = "neuvedeno" ∧
    dictGet (extract_data_generali "" "f") "Roční nájezd" = "neuvedeno" :=
  C5_amended_absence_defaults "" "f" rfl rfl rfl rfl rfl rfl rfl rfl

/-- C7: when the (Allianz) coverage-limit pattern captures two adjacent
numbers, or the (Kooperativa) `findall` yields at least two limit numbers, the
liability-coverage field is `<first>/<second>`. -/
theorem C7_liability_reassembly (t f : String) :
    (∀ a b, allianzKrytiPair t.data = some (a, b) →
      dictGet (extract_data_allianz t f) "Krytí PR" = a ++ "/" ++ b) ∧
    (∀ a b rest, refindall reKoopLimit t.data = a :: b :: rest →
      dictGet (extract_data_koop t f) "Krytí PR" = strOf a ++ "/" ++ strOf b) := by
  have ha : dictGet (extract_data_allianz t f) "Krytí PR" = allianzKryti t.data := by
    simp only [extract_data_allianz, dictGet_dictSet]
    simp
  have hk : dictGet (extract_data_koop t f) "Krytí PR" = koopKryti t.data := by
    simp only [extract_data_koop, dictGet_dictSet]
    simp
  constructor
  · intro a b hab
    rw [ha]
    unfold allianzKryti
    rw [hab]
  · intro a b rest hl
    rw [hk]
    unfold koopKryti
    rw [hl]

/-- Witness for C7: captures `70` and `35` yield `"70/35"` for both issuers. -/
theorem C7_liability_reassembly_witness :
    dictGet (extract_data_allianz "Limit 70/35" "f") "Krytí PR" = "70/35" ∧
    dictGet (extract_data_koop "kryje 70 mil. Kč a 35 mil. Kč" "g") "Krytí PR" = "70/35" := by
  constructor
  · exact (C7_liability_reassembly _ _).1 "70" "35" (by decide)
  · exact (C7_liability_reassembly _ _).2 "70".data "35".data [] (by decide)

/-- C8 counterexample: on a document whose FIRST label line is the very first
line (no preceding line) but that has a later label line, the code takes the
predecessor of the later occurrence, while the claim's primary path yields no
name and its fallback is absent, so the claim predicts the empty name. -/
theorem C8_counterexample :
    dictGet (extract_data_allianz "Rodné číslo\nJan Novak\nRodné číslo" "f")
      "Jméno a příjmení" = "Jan Novak" ∧
    allianzJmenoClaimed "Rodné číslo\nJan Novak\nRodné číslo" = "" ∧
    dictGet (extract_data_allianz "Rodné číslo\nJan Novak\nRodné číslo" "f")
      "Jméno a příjmení" ≠ allianzJmenoClaimed "Rodné číslo\nJan Novak\nRodné číslo" := by
  refine ⟨?_, rfl, by decide⟩
  rfl

/-- C8 (amended): the Allianz name is the stripped non-empty predecessor of
the first label-bearing line that has a predecessor (an occurrence on the very
first line is skipped), and the `Klient (Vy):` fallback line is used only when
that primary path yields no name. -/
theorem C8_amended_name_priority (t f : String) :
    dictGet (extract_data_allianz t f) "Jméno a příjmení" = allianzJmenoAmended t := by
  have h : dictGet (extract_data_allianz t f) "Jméno a příjmení"
      = allianzJmeno (splitLinesPy t.data) := by
    simp only [extract_data_allianz, dictGet_dictSet]
    simp
  rw [h]
  simp only [allianzJmeno, allianzJmenoAmended]
  cases hf : allianzPrimaryPair (splitLinesPy t.data) with
  | none => rfl
  | some pr =>
    by_cases hp : (pyStrip pr.1).isEmpty = true
    · simp [hp]
    · simp [hp]

/-- C9: the Generali extractor's same-owner field is the constant `"NE"` on
every input; `"ANO"` is unreachable for it. -/
theorem C9_generali_same_owner_constant (t f : String) :
    dictGet (extract_data_generali t f) "Shodný vlastník" = "NE" ∧
    dictGet (extract_data_generali t f) "Shodný vlastník" ≠ "ANO" := by
  have h : dictGet (extract_data_generali t f) "Shodný vlastník"
      = generaliShodnyVlastnik t.data := by
    simp only [extract_data_generali, dictGet_dictSet]
    simp
  have h2 : generaliShodnyVlastnik t.data = "NE" := by
    unfold generaliShodnyVlastnik
    cases research reGenVlastnik t.data <;> rfl
  rw [h, h2]
  exact ⟨rfl, by decide⟩

/-- Witness for C9 at a document that does contain an owner line. -/
theorem C9_generali_same_owner_constant_witness :
    dictGet (extract_data_generali "3.1 Vlastník vozidla: Petr Novák" "f")
      "Shodný vlastník" = "NE" :=
  (C9_generali_same_owner_constant "3.1 Vlastník vozidla: Petr Novák" "f").1

/-- C10: the Kooperativa liability-coverage field is `<first>/<second>` of the
`findall` limit captures when there are at least two, the literal
`"neuvedeno"` otherwise, and is in particular never the empty string. -/
theorem C10_koop_liability_total (t f : String) :
    dictGet (extract_data_koop t f) "Krytí PR" =
      (match refindall reKoopLimit t.data with
        | a :: b :: _ => strOf a ++ "/" ++ strOf b
        | _ => "neuvedeno") ∧
    1 ≤ (dictGet (extract_data_koop t f) "Krytí PR").length := by
  have h : dictGet (extract_data_koop t f) "Krytí PR" = koopKryti t.data := by
    simp only [extract_data_koop, dictGet_dictSet]
    simp
  constructor
  · rw [h]
    rfl
  · rw [h]
    unfold koopKryti
    rcases hl : refindall reKoopLimit t.data with _ | ⟨a, _ | ⟨b, rest⟩⟩
    · exact (by decide : 1 ≤ ("neuvedeno" : String).length)
    · exact (by decide : 1 ≤ ("neuvedeno" : String).length)
    · have hs : ("/" : String).length = 1 := rfl
      simp [String.length_append, hs]
      omega
